import Mathlib

/-
Verification of the Boosty downloader core (src/core/launchers.py,
src/core/downloader.py) as a shallow embedding.

Conventions of the embedding:
  * Python `None`-able values become `Option`; Python truthiness of an
    optional value is made explicit by the `truthy*` helpers below
    (`None`, `0`, `""` are falsy).
  * The float comparison `actual_len < expected_len * 0.8`
    (downloader.py line 49) is embedded as the exact rational comparison
    `actual_len * 5 < expected_len * 4`; the two agree on every file size
    small enough that `expected_len * 0.8` incurs no double rounding
    across an integer (all realistic sizes).
  * Filesystem and network effects are parameters of the environment
    (`DLEnv`): whether the destination or its ".part" marker exists, the
    probed content length, whether the transfer and the final rename
    succeed.  The function under test returns a trace recording every
    externally visible action it performed.
  * Collaborators that are not part of the analysed sources
    (core/sync_data.py, core/stat_tracker.py, core/utils.py,
    core/post_mapping/*) are modelled from the spec; each such definition
    carries a doc comment saying so.
-/

namespace Boosty

/-- Python truthiness of an optional string: `None` and `""` are falsy. -/
def truthyStr : Option String → Bool
  | none => false
  | some s => s != ""

/-- Python truthiness of an optional integer: `None` and `0` are falsy. -/
def truthyInt : Option Int → Bool
  | none => false
  | some v => v != 0

/-- Python truthiness of an optional natural number: `None` and `0` are falsy. -/
def truthyNat : Option Nat → Bool
  | none => false
  | some n => n != 0

/-- Substring containment on character lists (Python `needle in hay`). -/
def containsSeq (needle : List Char) : List Char → Bool
  | [] => needle.isEmpty
  | c :: rest => needle.isPrefixOf (c :: rest) || containsSeq needle rest

/-- The check `".m3u8" in file_url.lower()` from downloader.py line 45. -/
def urlHasM3u8 (url : String) : Bool :=
  containsSeq ".m3u8".toList (url.toList.map Char.toLower)

/-- The decimal value of one digit character, `none` for a non-digit. -/
def charDigit (c : Char) : Option Nat :=
  if c.isDigit then some (c.toNat - '0'.toNat) else none

/-- Accumulating decimal parser over a character list; fails on the first
non-digit. -/
def parseDecimalAux : List Char → Nat → Option Nat
  | [], acc => some acc
  | c :: rest, acc =>
    match charDigit c with
    | none => none
    | some d => parseDecimalAux rest (acc * 10 + d)

/-- Decimal parse of a non-empty all-digit character list. -/
def parseDecimal : List Char → Option Nat
  | [] => none
  | cs => parseDecimalAux cs 0

/-- The characters of a token up to (excluding) the first `:`. -/
def takeUntilColon : List Char → List Char
  | [] => []
  | c :: rest => if c = ':' then [] else c :: takeUntilColon rest

/-- Modelled from the spec: `parse_offset_time` lives in core/utils.py, which is
not among the analysed sources.  The spec says the returned offset token is
parsed "into a comparable numeric form"; offset tokens carry their numeric
field first, optionally followed by `:`-separated extra data, so we read the
leading decimal field.  `None` parses to `None`. -/
def parse_offset_time (o : Option String) : Option Int :=
  o.bind fun s => (parseDecimal (takeUntilColon s.toList)).map Int.ofNat

/-- Outcome of `_download_file_if_not_exists` when it returns normally
(downloader.py declares `Literal["downloaded", "passed", "incomplete"]`). -/
inductive DLOutcome
  | downloaded
  | passed
  | incomplete
  deriving DecidableEq, Repr

/-- The two exception sites inside `_download_file_if_not_exists`: the explicit
`raise Exception` when `download_file` reports failure (line 60) and the
re-raised `os.replace` failure (line 66). -/
inductive DLError
  | downloadFailed
  | replaceFailed
  deriving DecidableEq, Repr

/-- Environment of one item transfer: the filesystem / network facts that
`_download_file_if_not_exists` observes.  `hash_fields`, `api_size` and
`file_hash` describe the feed metadata of the item (spec data model:
hash-like fields and the feed's self-reported size) and the actual content
hash of the existing file; they are carried so that theorems can speak about
whether the code consults them. -/
structure DLEnv where
  part_exists : Bool
  unlink_ok : Bool
  file_exists : Bool
  url : String
  probe_len : Option Nat
  actual_size : Nat
  download_ok : Bool
  replace_ok : Bool
  save_meta : Bool
  has_metadata : Bool
  hash_fields : List (String × String)
  api_size : Option Nat
  file_hash : String
  deriving DecidableEq, Repr

/-- Trace of one `_download_file_if_not_exists` call: its result (normal
outcome or raised exception) and every externally visible action. -/
structure DLTrace where
  status : Except DLError DLOutcome
  part_delete_attempted : Bool
  part_deleted : Bool
  transfer_started : Bool
  replaced : Bool
  recorded_incomplete : Bool
  wrote_metadata : Bool
  deriving Repr

/-- `expected_len` computation of downloader.py lines 44-46: stays `None` when
the URL contains ".m3u8", otherwise the probed content length. -/
def expected_length (env : DLEnv) : Option Nat :=
  if urlHasM3u8 env.url then none else env.probe_len

/-- Shallow embedding of `Downloader._download_file_if_not_exists`
(downloader.py lines 29-70).  `metadata` is the truthiness of the `metadata`
argument.  The ".part" marker is deleted (attempted) whenever it exists;
if the final file exists, only the length check runs; otherwise the content
is transferred to the ".part" path and renamed into place on success. -/
def download_file_if_not_exists (env : DLEnv) (metadata : Bool) : DLTrace :=
  let attempted := env.part_exists
  let deleted := env.part_exists && env.unlink_ok
  if env.file_exists then
    let expected := expected_length env
    if truthyNat expected then
      if env.actual_size * 5 < expected.getD 0 * 4 then
        { status := .ok .incomplete, part_delete_attempted := attempted,
          part_deleted := deleted, transfer_started := false, replaced := false,
          recorded_incomplete := true, wrote_metadata := false }
      else
        { status := .ok .passed, part_delete_attempted := attempted,
          part_deleted := deleted, transfer_started := false, replaced := false,
          recorded_incomplete := false, wrote_metadata := false }
    else
      { status := .ok .passed, part_delete_attempted := attempted,
        part_deleted := deleted, transfer_started := false, replaced := false,
        recorded_incomplete := false, wrote_metadata := false }
  else
    if env.download_ok then
      if env.replace_ok then
        { status := .ok .downloaded, part_delete_attempted := attempted,
          part_deleted := deleted, transfer_started := true, replaced := true,
          recorded_incomplete := false,
          wrote_metadata := env.save_meta && metadata }
      else
        { status := .error .replaceFailed, part_delete_attempted := attempted,
          part_deleted := deleted, transfer_started := true, replaced := false,
          recorded_incomplete := false, wrote_metadata := false }
    else
      { status := .error .downloadFailed, part_delete_attempted := attempted,
        part_deleted := deleted, transfer_started := true, replaced := false,
        recorded_incomplete := false, wrote_metadata := false }

/-- Modelled from the spec: core/stat_tracker.py is not among the analysed
sources.  The spec says the shared statistics aggregate keeps, per content
kind, passed / downloaded / error counters, plus one global incomplete-files
list (there is no per-kind or global incomplete counter). -/
structure StatTracker where
  passed_photo : Nat
  downloaded_photo : Nat
  error_photo : Nat
  passed_video : Nat
  downloaded_video : Nat
  error_video : Nat
  passed_audio : Nat
  downloaded_audio : Nat
  error_audio : Nat
  passed_file : Nat
  downloaded_file : Nat
  error_file : Nat
  incomplete_files : List String
  deriving DecidableEq, Repr

/-- The all-zero statistics aggregate. -/
def StatTracker.init : StatTracker :=
  ⟨0, 0, 0, 0, 0, 0, 0, 0, 0, 0, 0, 0, []⟩

def add_passed_photo (s : StatTracker) : StatTracker :=
  { s with passed_photo := s.passed_photo + 1 }

def add_downloaded_photo (s : StatTracker) : StatTracker :=
  { s with downloaded_photo := s.downloaded_photo + 1 }

def add_error_photo (s : StatTracker) : StatTracker :=
  { s with error_photo := s.error_photo + 1 }

def add_passed_video (s : StatTracker) : StatTracker :=
  { s with passed_video := s.passed_video + 1 }

def add_downloaded_video (s : StatTracker) : StatTracker :=
  { s with downloaded_video := s.downloaded_video + 1 }

def add_error_video (s : StatTracker) : StatTracker :=
  { s with error_video := s.error_video + 1 }

def add_passed_audio (s : StatTracker) : StatTracker :=
  { s with passed_audio := s.passed_audio + 1 }

def add_downloaded_audio (s : StatTracker) : StatTracker :=
  { s with downloaded_audio := s.downloaded_audio + 1 }

def add_error_audio (s : StatTracker) : StatTracker :=
  { s with error_audio := s.error_audio + 1 }

def add_passed_file (s : StatTracker) : StatTracker :=
  { s with passed_file := s.passed_file + 1 }

def add_downloaded_file (s : StatTracker) : StatTracker :=
  { s with downloaded_file := s.downloaded_file + 1 }

def add_error_file (s : StatTracker) : StatTracker :=
  { s with error_file := s.error_file + 1 }

/-- Modelled from the spec: incomplete outcomes are recorded in a global
incomplete-files list (called from downloader.py line 51). -/
def add_incomplete_file (s : StatTracker) (p : String) : StatTracker :=
  { s with incomplete_files := s.incomplete_files ++ [p] }

/-- The four content-kind codes `"p" | "v" | "a" | "f"` of
`_get_file_and_raise_stat` (downloader.py line 76). -/
inductive Kind
  | p
  | v
  | a
  | f
  deriving DecidableEq, Repr

/-- The `passed` callback selected by the `match _t` of downloader.py 80-99. -/
def kindPassed : Kind → StatTracker → StatTracker
  | .p => add_passed_photo
  | .v => add_passed_video
  | .a => add_passed_audio
  | .f => add_passed_file

/-- The `downloaded` callback selected by the `match _t` of downloader.py. -/
def kindDownloaded : Kind → StatTracker → StatTracker
  | .p => add_downloaded_photo
  | .v => add_downloaded_video
  | .a => add_downloaded_audio
  | .f => add_downloaded_file

/-- The `error` callback selected by the `match _t` of downloader.py. -/
def kindError : Kind → StatTracker → StatTracker
  | .p => add_error_photo
  | .v => add_error_video
  | .a => add_error_audio
  | .f => add_error_file

/-- The `meta` variable of downloader.py 79-99: the metadata argument is
forwarded only for videos and reset to `None` for every other kind. -/
def kindMeta (kind : Kind) (env : DLEnv) : Bool :=
  match kind with
  | .v => env.has_metadata
  | _ => false

/-- Per-item result as seen by callers of `_get_file_and_raise_stat`:
the three normal outcomes plus the `"error"` string it returns after
catching an exception. -/
inductive FinalStatus
  | downloaded
  | passed
  | incomplete
  | error
  deriving DecidableEq, Repr

/-- Inclusion of normal outcomes into per-item results. -/
def statusOfOutcome : DLOutcome → FinalStatus
  | .downloaded => .downloaded
  | .passed => .passed
  | .incomplete => .incomplete

/-- Shallow embedding of `Downloader._get_file_and_raise_stat`
(downloader.py lines 72-114): runs the transfer, converts any raised
exception into the `"error"` result while bumping the kind's error counter,
bumps the downloaded counter on `"downloaded"` and the passed counter on
every other normal outcome.  The statistics aggregate is threaded
explicitly. -/
def get_file_and_raise_stat (kind : Kind) (env : DLEnv) (path_file : String)
    (st : StatTracker) : FinalStatus × StatTracker :=
  let tr := download_file_if_not_exists env (kindMeta kind env)
  let st1 := if tr.recorded_incomplete then add_incomplete_file st path_file else st
  match tr.status with
  | .ok .downloaded => (.downloaded, kindDownloaded kind st1)
  | .ok out => (statusOfOutcome out, kindPassed kind st1)
  | .error _ => (.error, kindError kind st1)

/-- Shallow embedding of one `download_photos` / `download_videos` /
`download_audios` / `download_files` invocation (downloader.py 128-182):
every item yields exactly one result, and the destination paths of items
whose result is `"incomplete"` are collected. -/
def run_kind_batch (kind : Kind) :
    List (String × DLEnv) → StatTracker →
      List FinalStatus × List String × StatTracker
  | [], st => ([], [], st)
  | (path, env) :: rest, st =>
    let r := get_file_and_raise_stat kind env path st
    let tail := run_kind_batch kind rest r.2
    (r.1 :: tail.1,
      (if r.1 = FinalStatus.incomplete then [path] else []) ++ tail.2.1,
      tail.2.2)

/-- Selector for the passed counter of a kind. -/
def passedCount : Kind → StatTracker → Nat
  | .p, s => s.passed_photo
  | .v, s => s.passed_video
  | .a, s => s.passed_audio
  | .f, s => s.passed_file

/-- Selector for the downloaded counter of a kind. -/
def downloadedCount : Kind → StatTracker → Nat
  | .p, s => s.downloaded_photo
  | .v, s => s.downloaded_video
  | .a, s => s.downloaded_audio
  | .f, s => s.downloaded_file

/-- Selector for the error counter of a kind. -/
def errorCount : Kind → StatTracker → Nat
  | .p, s => s.error_photo
  | .v, s => s.error_video
  | .a, s => s.error_audio
  | .f, s => s.error_file

/-- One page answer of `get_all_media_by_type`: the `is_last` flag reported by
the API and the returned offset token (launchers.py line 48). -/
structure MediaPage where
  api_is_last : Bool
  got_offset : Option String
  deriving DecidableEq, Repr

/-- Modelled from the spec: core/sync_data.py is not among the analysed
sources.  Per stream the Checkpoint Store holds `completed_offset`
(optional int: the last fully-completed high-water offset, stored through
`str()` and read back through `int()`, which round-trip) and
`runtime_offset` (optional string: the in-progress crash-resume token). -/
structure CheckpointRecord where
  completed_offset : Option Int
  runtime_offset : Option String
  deriving DecidableEq, Repr

/-- What one iteration of the `_fetch_media` loop did: the offset the page was
fetched at, the value of `is_last` at the moment of the runtime-write
decision (line 74 runs after the terminal check of lines 58-62), whether a
`runtime_offset` write happened, and the stored `completed_offset` right
after the iteration. -/
structure PageLog where
  fetch_offset : Option String
  terminal : Bool
  wrote_runtime : Bool
  completed_after : Option Int
  deriving DecidableEq, Repr

/-- Result of a completed `_fetch_media` run: final checkpoint state, the
first-page offset `fot`, the number of pages processed, and the per-page
log. -/
structure RunResult where
  ckpt : CheckpointRecord
  fot : Option Int
  pages_processed : Nat
  log : List PageLog
  deriving DecidableEq, Repr

/-- The `completed_offset` update of launchers.py lines 82-87 (identical in
fetch_and_save_posts lines 255-260): if `fot` is truthy, set it when no
value is stored, or raise the stored value when it is smaller; otherwise
leave the stored value alone. -/
def applyCompleted (cur : Option Int) (fot : Option Int) : Option Int :=
  if truthyInt fot then
    match cur with
    | none => fot
    | some c => if c < fot.getD 0 then fot else some c
  else cur

/-- The graceful-completion epilogue of `_fetch_media` (launchers.py lines
80-88): with a Checkpoint Store present, clear `runtime_offset` and apply
the `completed_offset` update; without one, no state changes. -/
def finishMedia (sync : Bool) (fot : Option Int) (ck : CheckpointRecord)
    (n : Nat) (log : List PageLog) : RunResult :=
  if sync then
    ⟨⟨applyCompleted ck.completed_offset fot, none⟩, fot, n, log⟩
  else
    ⟨ck, fot, n, log⟩

/-- What one iteration of the `_fetch_media` loop computes before deciding
whether to continue: the updated terminal flag, `fot`, checkpoint state, and
the log entry describing the iteration. -/
structure StepOut where
  is_last : Bool
  fot : Option Int
  ck : CheckpointRecord
  entry : PageLog
  deriving DecidableEq, Repr

/-- One iteration body of the `_fetch_media` loop (launchers.py lines 47-78):
parse the returned offset, latch `fot` on the first truthy parse (line 56),
mark terminal when the API said so or when `parsed_offset <= eot` with both
truthy (lines 58-62), and write `runtime_offset` exactly when a Checkpoint
Store is present and the offset this page was fetched at is truthy (lines
74-76; this write happens after the terminal check). -/
def pageStep (sync : Bool) (eot : Option Int) (page : MediaPage)
    (offset : Option String) (fot : Option Int) (ck : CheckpointRecord) :
    StepOut :=
  let parsed := parse_offset_time page.got_offset
  let fot1 := if fot.isNone && truthyInt parsed then parsed else fot
  let isLast := page.api_is_last ||
    (truthyInt eot && truthyInt parsed && decide (parsed.getD 0 ≤ eot.getD 0))
  let wrote := sync && truthyStr offset
  { is_last := isLast, fot := fot1,
    ck := ⟨ck.completed_offset, if wrote then offset else ck.runtime_offset⟩,
    entry := ⟨offset, isLast, wrote, ck.completed_offset⟩ }

/-- The `while not is_last` loop of `_fetch_media` (launchers.py lines 46-78),
consuming one `MediaPage` per iteration and advancing the offset to the
returned token (line 78).  Returns `none` when the supplied page list is
exhausted while the loop still wants another page (the run did not
complete). -/
def fetchMediaLoop (sync : Bool) (eot : Option Int) :
    List MediaPage → Option String → Option Int → CheckpointRecord → Nat →
      List PageLog → Option RunResult
  | [], _, _, _, _, _ => none
  | page :: rest, offset, fot, ck, n, log =>
    let s := pageStep sync eot page offset fot ck
    if s.is_last then
      some (finishMedia sync s.fot s.ck (n + 1) (log ++ [s.entry]))
    else
      fetchMediaLoop sync eot rest page.got_offset s.fot s.ck (n + 1)
        (log ++ [s.entry])

/-- Shallow embedding of `_fetch_media` (launchers.py lines 29-88) for one
stream.  `sync` states whether a Checkpoint Store is present; `eot` is taken
from the stored `completed_offset` when truthy (lines 42-45; the store keeps
it as a string, whose truthiness differs from the integer's only for `"0"`,
where the downstream `if eot` guard makes the behaviours coincide). -/
def run_fetch_media (sync : Bool) (start_offset : Option String)
    (ck : CheckpointRecord) (pages : List MediaPage) : Option RunResult :=
  let eot := if sync && truthyInt ck.completed_offset then ck.completed_offset
    else none
  fetchMediaLoop sync eot pages start_offset none ck 0 []

/-- One row of the path-registry store.  Modelled from the spec: the store
itself (core/post_mapping/db.py) is not among the analysed sources; the spec
describes rows `{creator, post_id, local_path}` keyed by post id with a
secondary index by local path. -/
structure RegEntry where
  creator : String
  post_path : String
  post_id : String
  deriving DecidableEq, Repr

/-- Modelled from the spec: `PostDBClient.get_post` — the registry row of a
post id, if any (rows are keyed by post id). -/
def get_post (db : List RegEntry) (pid : String) : Option RegEntry :=
  db.find? fun e => e.post_id == pid

/-- Modelled from the spec: `PostDBClient.get_posts_by_path` — the rows whose
local path equals the given one (the secondary index by path). -/
def get_posts_by_path (db : List RegEntry) (path : String) : List RegEntry :=
  db.filter fun e => e.post_path == path

/-- Modelled from the spec: `PostDBClient.create_post` — persist one new row. -/
def create_post (db : List RegEntry) (creator path pid : String) :
    List RegEntry :=
  db ++ [⟨creator, path, pid⟩]

/-- Modelled from the spec: `validate_windows_dir_name` lives in
core/post_mapping/utils.py, which is not among the analysed sources.  The
spec says the candidate title is sanitised "into a filesystem-safe name", so
we drop the characters Windows forbids in directory names. -/
def validate_windows_dir_name (s : String) : String :=
  String.mk (s.toList.filter fun c =>
    !(['<', '>', ':', '"', '/', '\\', '|', '?', '*'].contains c))

/-- The name choice of launchers.py lines 196-199: sanitise the title when it
is non-empty, otherwise fall back to the post id. -/
def humanName (pid title : String) : String :=
  if title.length != 0 then validate_windows_dir_name title else pid

/-- Path concatenation `dir / name` rendered as a string. -/
def joinPath (dir name : String) : String :=
  dir ++ "/" ++ name

/-- Shallow embedding of the masquerade path resolution of
`fetch_and_save_posts` (launchers.py lines 191-203; the same block appears
in `fetch_and_save_lonely_post` lines 311-323): return the stored path when
the post id has a row; otherwise build the sanitised name, disambiguate by
suffixing `_<post_id>` when the path is already taken, and persist the new
row.  Returns the resolved path and the updated store. -/
def resolve_post_path (posts_path : String) (db : List RegEntry)
    (creator pid title : String) : String × List RegEntry :=
  match get_post db pid with
  | some e => (e.post_path, db)
  | none =>
    let human := humanName pid title
    let p0 := joinPath posts_path human
    let p := if (get_posts_by_path db p0).length != 0 then
        joinPath posts_path (human ++ "_" ++ pid)
      else p0
    (p, create_post db creator p pid)

/-- Checkpoint of the worked example in the spec: `completed_offset = 50`. -/
def c1_ck : CheckpointRecord := ⟨some 50, none⟩

/-- Pages of the worked example: page 1 returns token "80", page 2 returns
token "40"; a third page is supplied to show it is never fetched. -/
def c1_pages : List MediaPage :=
  [⟨false, some "80"⟩, ⟨false, some "40"⟩, ⟨false, some "10"⟩]

/-- Checkpoint for the terminal-page runtime-write scenario. -/
def c2_ck : CheckpointRecord := ⟨some 50, none⟩

/-- Pages for the terminal-page runtime-write scenario. -/
def c2_pages : List MediaPage := [⟨false, some "80"⟩, ⟨false, some "40"⟩]

/-- Checkpoint for the monotonicity witness run. -/
def c3_ck : CheckpointRecord := ⟨some 50, none⟩

/-- Pages for the monotonicity witness run: the API itself ends the stream on
page 2. -/
def c3_pages : List MediaPage := [⟨false, some "90"⟩, ⟨true, some "60"⟩]

/-- Result of the monotonicity witness run. -/
def c3_result : RunResult :=
  ⟨⟨some 90, none⟩, some 90, 2,
    [⟨none, false, false, some 50⟩, ⟨some "90", true, true, some 50⟩]⟩

/-- An existing destination file of 79% of the probed length. -/
def c4_env : DLEnv :=
  ⟨false, true, true, "https://cdn.example.com/img/a.jpg", some 100, 79,
    true, true, false, false, [], some 100, "h79"⟩

/-- An existing destination whose feed metadata carries a hash field that
does not match the file's content hash, while the probed length matches. -/
def c5_env : DLEnv :=
  ⟨false, true, true, "https://cdn.example.com/v/file.bin", some 1000, 1000,
    true, true, false, false, [("md5", "aaaa")], some 999, "bbbb"⟩

/-- The same environment as `c5_env` with all feed-metadata integrity inputs
removed. -/
def c5_env_plain : DLEnv :=
  ⟨false, true, true, "https://cdn.example.com/v/file.bin", some 1000, 1000,
    true, true, false, false, [], none, ""⟩

/-- A missing destination with a stale ".part" marker; transfer and rename
succeed. -/
def c6_env : DLEnv :=
  ⟨true, true, false, "https://cdn.example.com/v/b.mp4", none, 0,
    true, true, true, true, [], none, ""⟩

/-- A missing destination whose transfer fails. -/
def c7_env : DLEnv :=
  ⟨false, true, false, "https://cdn.example.com/p/c.jpg", none, 0,
    false, true, false, false, [], none, ""⟩

/-- An existing destination file of 10% of the probed length. -/
def c10_env : DLEnv :=
  ⟨false, true, true, "https://cdn.example.com/p/d.jpg", some 100, 10,
    true, true, false, false, [], some 100, "x"⟩

/-- A registry that already maps post id "42". -/
def c8_db : List RegEntry := [⟨"c", "posts/Title A", "42"⟩]

end Boosty

namespace Boosty

/-- A non-empty string has non-zero length. -/
theorem str_length_ne_zero (s : String) (h : s ≠ "") : s.length ≠ 0 := by
  intro h0
  apply h
  cases s with
  | mk data =>
    have hd : data = [] := List.length_eq_zero.mp h0
    simp [hd]

/-- `applyCompleted` never lowers a stored completed offset. -/
theorem applyCompleted_mono (c : Int) (f : Option Int) :
    ∃ c2, applyCompleted (some c) f = some c2 ∧ c ≤ c2 := by
  cases f with
  | none => exact ⟨c, rfl, le_refl c⟩
  | some v =>
    by_cases hv : v = 0
    · subst hv
      exact ⟨c, rfl, le_refl c⟩
    · by_cases hc : c < v
      · refine ⟨v, ?_, le_of_lt hc⟩
        simp [applyCompleted, truthyInt, hv, hc]
      · refine ⟨c, ?_, le_refl c⟩
        simp [applyCompleted, truthyInt, hv, hc]

/-- `finishMedia` returns the log it was given, for either value of `sync`. -/
theorem finishMedia_log (sync : Bool) (fot : Option Int) (ck : CheckpointRecord)
    (n : Nat) (log : List PageLog) : (finishMedia sync fot ck n log).log = log := by
  cases sync <;> rfl

/-- Loop invariant of `fetchMediaLoop`: on a completed run with a Checkpoint
Store, the final `completed_offset` is `applyCompleted` of the initial one at
the run's `fot` and `runtime_offset` ends cleared; and every log entry either
was already in the accumulator or records a runtime write exactly when the
store is present and its fetch offset is truthy, with `completed_offset`
untouched at that point. -/
theorem fetchMediaLoop_spec (sync : Bool) (eot : Option Int)
    (pages : List MediaPage) :
    ∀ (offset : Option String) (fot : Option Int) (ck : CheckpointRecord)
      (n : Nat) (log : List PageLog) (r : RunResult),
      fetchMediaLoop sync eot pages offset fot ck n log = some r →
      (sync = true →
        r.ckpt.completed_offset = applyCompleted ck.completed_offset r.fot ∧
        r.ckpt.runtime_offset = none) ∧
      ∀ e ∈ r.log, e ∈ log ∨
        (e.wrote_runtime = (sync && truthyStr e.fetch_offset) ∧
          e.completed_after = ck.completed_offset) := by
  induction pages with
  | nil =>
    intro offset fot ck n log r h
    simp [fetchMediaLoop] at h
  | cons page rest ih =>
    intro offset fot ck n log r h
    simp only [fetchMediaLoop] at h
    by_cases hl : (pageStep sync eot page offset fot ck).is_last = true
    · rw [if_pos hl] at h
      have hr := Option.some.inj h
      subst hr
      constructor
      · intro hs
        subst hs
        exact ⟨rfl, rfl⟩
      · intro e he
        rw [finishMedia_log] at he
        rcases List.mem_append.mp he with hin | hin
        · exact Or.inl hin
        · have he2 : e = (pageStep sync eot page offset fot ck).entry :=
            List.mem_singleton.mp hin
          subst he2
          exact Or.inr ⟨rfl, rfl⟩
    · rw [if_neg hl] at h
      obtain ⟨h1, h2⟩ := ih page.got_offset
        (pageStep sync eot page offset fot ck).fot
        (pageStep sync eot page offset fot ck).ck (n + 1)
        (log ++ [(pageStep sync eot page offset fot ck).entry]) r h
      constructor
      · intro hs
        obtain ⟨hc, hrt⟩ := h1 hs
        exact ⟨hc, hrt⟩
      · intro e he
        rcases h2 e he with hin | hP
        · rcases List.mem_append.mp hin with h3 | h3
          · exact Or.inl h3
          · have he2 : e = (pageStep sync eot page offset fot ck).entry :=
              List.mem_singleton.mp h3
            subst he2
            exact Or.inr ⟨rfl, rfl⟩
        · exact Or.inr ⟨hP.1, hP.2⟩

/-- C1: for a media stream with previously completed offset `eot = 50`, where
the first fetched page returns offset token "80" and the second returns
offset token "40", `_fetch_media` processes exactly two pages (the terminal
page included, a third supplied page is never fetched), clears
`runtime_offset` at the end, and raises `completed_offset` from 50 to 80. -/
theorem C1_pagination_example :
    run_fetch_media true none c1_ck c1_pages =
      some ⟨⟨some 80, none⟩, some 80, 2,
        [⟨none, false, false, some 50⟩, ⟨some "80", true, true, some 50⟩]⟩ := by
  rfl

/-- C2 counterexample: in the very scenario of the spec's worked example
(`eot = 50`, pages "80" then "40"), the terminal page (the one whose log
entry has `terminal = true`) does get a `runtime_offset` write, because the
write at launchers.py lines 74-76 is guarded only by `sync_data and offset`,
not by `is_last`.  This contradicts the claim that no `runtime_offset` write
occurs for the terminal page. -/
theorem C2_counterexample :
    (run_fetch_media true none c2_ck c2_pages).map
        (fun r => r.log.filter fun e => e.wrote_runtime && e.terminal) =
      some [⟨some "80", true, true, some 50⟩] := by
  rfl

/-- C2 amended: during a `_fetch_media` run, the runtime offset checkpoint is
persisted after a page exactly when a Checkpoint Store is present and the
offset the page was fetched at is truthy (i.e. not the first iteration with
an absent or empty start offset), irrespective of whether the page is
terminal. -/
theorem C2_runtime_write_rule (sync : Bool) (start : Option String)
    (ck : CheckpointRecord) (pages : List MediaPage) (r : RunResult)
    (h : run_fetch_media sync start ck pages = some r) :
    ∀ e ∈ r.log, e.wrote_runtime = (sync && truthyStr e.fetch_offset) := by
  intro e he
  simp only [run_fetch_media] at h
  rcases (fetchMediaLoop_spec sync _ pages start none ck 0 [] r h).2 e he with
    hin | hP
  · simp at hin
  · exact hP.1

/-- C2 witness: the terminal-page entry of the concrete run satisfies the
amended write rule. -/
theorem C2_runtime_write_rule_witness :
    (⟨some "80", true, true, some 50⟩ : PageLog).wrote_runtime =
      (true && truthyStr (some "80")) :=
  C2_runtime_write_rule true none c2_ck c2_pages
    ⟨⟨some 80, none⟩, some 80, 2,
      [⟨none, false, false, some 50⟩, ⟨some "80", true, true, some 50⟩]⟩
    rfl ⟨some "80", true, true, some 50⟩ (by decide)

/-- C3: over a completed `_fetch_media` run with a Checkpoint Store, the
stored `completed_offset` is written only at full-stream completion (every
page's snapshot still carries the initial value), is raised to the
first-page offset `fot` only when unset or smaller, hence is monotonically
non-decreasing, and is unchanged when the stream produced no `fot`. -/
theorem C3_completed_monotone (start : Option String) (ck : CheckpointRecord)
    (pages : List MediaPage) (r : RunResult)
    (h : run_fetch_media true start ck pages = some r) :
    r.ckpt.completed_offset = applyCompleted ck.completed_offset r.fot ∧
    r.ckpt.runtime_offset = none ∧
    (∀ e ∈ r.log, e.completed_after = ck.completed_offset) ∧
    (∀ c : Int, ck.completed_offset = some c →
      ∃ c2, r.ckpt.completed_offset = some c2 ∧ c ≤ c2) ∧
    (r.fot = none → r.ckpt.completed_offset = ck.completed_offset) := by
  simp only [run_fetch_media] at h
  obtain ⟨h1, h2⟩ := fetchMediaLoop_spec true _ pages start none ck 0 [] r h
  obtain ⟨hc, hrt⟩ := h1 rfl
  refine ⟨hc, hrt, ?_, ?_, ?_⟩
  · intro e he
    rcases h2 e he with hin | hP
    · simp at hin
    · exact hP.2
  · intro c hcc
    rw [hc, hcc]
    exact applyCompleted_mono c r.fot
  · intro hf
    rw [hc, hf]
    rfl

/-- C3 witness: the monotonicity statement evaluated on a concrete completed
run (stored 50, first-page offset 90). -/
theorem C3_completed_monotone_witness :
    c3_result.ckpt.completed_offset =
      applyCompleted c3_ck.completed_offset c3_result.fot :=
  (C3_completed_monotone none c3_ck c3_pages c3_result rfl).1

/-- C4: for an item whose destination file already exists and whose expected
length is obtainable (probe not skipped by the ".m3u8" rule and truthy), the
outcome is `incomplete` exactly when the actual size is below 80% of the
expected length, `passed` otherwise, and in neither case is any transfer
started. -/
theorem C4_integrity_threshold (env : DLEnv) (meta : Bool) (n : Nat)
    (hfile : env.file_exists = true) (hurl : urlHasM3u8 env.url = false)
    (hlen : env.probe_len = some n) (hn : 0 < n) :
    (download_file_if_not_exists env meta).status =
      .ok (if env.actual_size * 5 < n * 4 then DLOutcome.incomplete
        else DLOutcome.passed) ∧
    (download_file_if_not_exists env meta).transfer_started = false := by
  refine ⟨?_, ?_⟩ <;>
    · by_cases hlt : env.actual_size * 5 < n * 4 <;>
        simp [download_file_if_not_exists, expected_length, hfile, hurl, hlen,
          truthyNat, hn.ne', hlt]

/-- C4 witness: a file at 79% of the expected length, classified without a
transfer (the threshold condition `79 * 5 < 100 * 4` holds, so the outcome is
`incomplete`). -/
theorem C4_integrity_threshold_witness :
    (download_file_if_not_exists c4_env false).status =
      .ok (if c4_env.actual_size * 5 < 100 * 4 then DLOutcome.incomplete
        else DLOutcome.passed) ∧
    (download_file_if_not_exists c4_env false).transfer_started = false :=
  C4_integrity_threshold c4_env false 100 rfl rfl rfl (by decide)

/-- C5 counterexample: an existing file whose feed metadata supplies a hash
field ("md5" = "aaaa") that differs from the file's content hash ("bbbb") is
still classified `passed`, and the whole trace is identical to the same
environment with no hash fields and no feed-reported size — the Download
Manager consults neither, so it does not check a feed-supplied hash with
priority over the length check. -/
theorem C5_counterexample :
    (download_file_if_not_exists c5_env false).status = .ok DLOutcome.passed ∧
    c5_env.hash_fields = [("md5", "aaaa")] ∧
    c5_env.file_hash = "bbbb" ∧
    ("aaaa" : String) ≠ "bbbb" ∧
    download_file_if_not_exists c5_env false =
      download_file_if_not_exists c5_env_plain false :=
  ⟨rfl, rfl, rfl, by decide, rfl⟩

/-- C5 amended: the Download Manager's only integrity input for an item is the
transport-level content length; its behaviour is invariant under the item's
feed-supplied hash fields, the feed's self-reported size, and the file's
content hash — none of them is ever consulted. -/
theorem C5_length_only_check (env : DLEnv) (meta : Bool)
    (hf : List (String × String)) (asz : Option Nat) (fh : String) :
    download_file_if_not_exists
        { env with hash_fields := hf, api_size := asz, file_hash := fh } meta =
      download_file_if_not_exists env meta := by
  cases env
  rfl

/-- C6: for an item with no existing destination file, the stale ".part"
marker is deleted (attempted unconditionally, succeeding when the unlink
does), the content transfer to the ".part" path always starts, the outcome is
`downloaded` exactly when the transfer and the atomic rename both succeed,
the rename happens exactly then, and a `downloaded` outcome implies the
rename — the final path is created only by `os.replace`. -/
theorem C6_fresh_download (env : DLEnv) (meta : Bool)
    (h : env.file_exists = false) :
    (download_file_if_not_exists env meta).part_delete_attempted =
      env.part_exists ∧
    (download_file_if_not_exists env meta).part_deleted =
      (env.part_exists && env.unlink_ok) ∧
    (download_file_if_not_exists env meta).transfer_started = true ∧
    ((download_file_if_not_exists env meta).status = .ok DLOutcome.downloaded ↔
      env.download_ok = true ∧ env.replace_ok = true) ∧
    (download_file_if_not_exists env meta).replaced =
      (env.download_ok && env.replace_ok) ∧
    ((download_file_if_not_exists env meta).status = .ok DLOutcome.downloaded →
      (download_file_if_not_exists env meta).replaced = true) := by
  cases hdl : env.download_ok <;> cases hrp : env.replace_ok <;>
    simp [download_file_if_not_exists, h, hdl, hrp]

/-- C6 witness: fresh download with a stale ".part" marker present and a
successful transfer and rename. -/
theorem C6_fresh_download_witness :
    (download_file_if_not_exists c6_env true).part_delete_attempted =
      c6_env.part_exists ∧
    (download_file_if_not_exists c6_env true).part_deleted =
      (c6_env.part_exists && c6_env.unlink_ok) ∧
    (download_file_if_not_exists c6_env true).transfer_started = true ∧
    ((download_file_if_not_exists c6_env true).status = .ok DLOutcome.downloaded ↔
      c6_env.download_ok = true ∧ c6_env.replace_ok = true) ∧
    (download_file_if_not_exists c6_env true).replaced =
      (c6_env.download_ok && c6_env.replace_ok) ∧
    ((download_file_if_not_exists c6_env true).status = .ok DLOutcome.downloaded →
      (download_file_if_not_exists c6_env true).replaced = true) :=
  C6_fresh_download c6_env true rfl

/-- A raised transfer never marks the path incomplete: the exception sites of
`_download_file_if_not_exists` are both on the missing-file branch, which
never records an incomplete path. -/
theorem download_error_no_incomplete (env : DLEnv) (meta : Bool) (e : DLError)
    (h : (download_file_if_not_exists env meta).status = .error e) :
    (download_file_if_not_exists env meta).recorded_incomplete = false := by
  by_cases hf : env.file_exists = true
  · exfalso
    by_cases ht : truthyNat (expected_length env) = true
    · by_cases hlt : env.actual_size * 5 < (expected_length env).getD 0 * 4 <;>
        simp [download_file_if_not_exists, hf, ht, hlt] at h
    · simp [download_file_if_not_exists, hf, ht] at h
  · by_cases hdl : env.download_ok = true <;>
      by_cases hrp : env.replace_ok = true <;>
        simp [download_file_if_not_exists, hf, hdl, hrp] at h ⊢

/-- An incomplete classification records the path: the only branch of
`_download_file_if_not_exists` that returns `incomplete` also calls
`add_incomplete_file`. -/
theorem download_incomplete_recorded (env : DLEnv) (meta : Bool)
    (h : (download_file_if_not_exists env meta).status = .ok DLOutcome.incomplete) :
    (download_file_if_not_exists env meta).recorded_incomplete = true := by
  by_cases hf : env.file_exists = true
  · by_cases ht : truthyNat (expected_length env) = true
    · by_cases hlt : env.actual_size * 5 < (expected_length env).getD 0 * 4 <;>
        simp [download_file_if_not_exists, hf, ht, hlt] at h ⊢
    · simp [download_file_if_not_exists, hf, ht] at h
  · by_cases hdl : env.download_ok = true <;>
      by_cases hrp : env.replace_ok = true <;>
        simp [download_file_if_not_exists, hf, hdl, hrp] at h

/-- Each invocation of a per-kind batch yields exactly one outcome per item. -/
theorem run_kind_batch_length (kind : Kind) :
    ∀ (items : List (String × DLEnv)) (st : StatTracker),
      (run_kind_batch kind items st).1.length = items.length := by
  intro items
  induction items with
  | nil => intro st; rfl
  | cons it rest ih =>
    intro st
    rcases it with ⟨path, env⟩
    simp [run_kind_batch, ih]

/-- C7: any exception raised while fetching one item is caught by
`_get_file_and_raise_stat` and converted into the `error` outcome, bumping
exactly that kind's error counter; the per-item function is total (no
exception escapes), so every item of a batch still yields its own outcome
— one item's failure never removes a sibling's result. -/
theorem C7_error_contained (kind : Kind) (env : DLEnv) (path : String)
    (st : StatTracker) (e : DLError)
    (h : (download_file_if_not_exists env (kindMeta kind env)).status =
      .error e) :
    get_file_and_raise_stat kind env path st =
      (FinalStatus.error, kindError kind st) ∧
    ∀ (items : List (String × DLEnv)) (st0 : StatTracker),
      (run_kind_batch kind items st0).1.length = items.length := by
  refine ⟨?_, fun items st0 => run_kind_batch_length kind items st0⟩
  have hrec := download_error_no_incomplete env (kindMeta kind env) e h
  simp [get_file_and_raise_stat, hrec, h]

/-- C7 witness: a photo whose transfer fails yields the `error` outcome with
the photo error counter bumped, from a fresh statistics aggregate. -/
theorem C7_error_contained_witness :
    get_file_and_raise_stat Kind.p c7_env "photos/c.jpg" StatTracker.init =
      (FinalStatus.error, kindError Kind.p StatTracker.init) :=
  (C7_error_contained Kind.p c7_env "photos/c.jpg" StatTracker.init
    DLError.downloadFailed rfl).1

/-- Resolving an unregistered post id persists exactly one new row carrying
the returned path. -/
theorem resolve_creates (pp : String) (db : List RegEntry)
    (creator pid title : String) (hg : get_post db pid = none) :
    ∃ p, resolve_post_path pp db creator pid title =
      (p, db ++ [⟨creator, p, pid⟩]) := by
  simp only [resolve_post_path, hg, create_post]
  exact ⟨_, rfl⟩

/-- C8: path-registry resolution is idempotent per post id — an existing row
is returned unchanged whatever candidate title is supplied, and resolving
twice with two different titles yields the identical path both times. -/
theorem C8_path_stability (pp creator pid t1 t2 : String)
    (db : List RegEntry) :
    (∀ e : RegEntry, get_post db pid = some e →
      (resolve_post_path pp db creator pid t1).1 = e.post_path) ∧
    (resolve_post_path pp (resolve_post_path pp db creator pid t1).2
        creator pid t2).1 =
      (resolve_post_path pp db creator pid t1).1 := by
  constructor
  · intro e he
    simp [resolve_post_path, he]
  · cases hg : get_post db pid with
    | some e => simp [resolve_post_path, hg]
    | none =>
      obtain ⟨p, hp⟩ := resolve_creates pp db creator pid t1 hg
      rw [hp]
      have h2 : get_post (db ++ [(⟨creator, p, pid⟩ : RegEntry)]) pid =
          some ⟨creator, p, pid⟩ := by
        have hg2 : db.find? (fun e => e.post_id == pid) = none := hg
        rw [get_post, List.find?_append, hg2]
        simp
      simp [resolve_post_path, h2]

/-- C8 witness: a stored row wins over a new title, and two resolutions with
different titles agree, on concrete data. -/
theorem C8_path_stability_witness :
    (resolve_post_path "posts" c8_db "c" "42" "Title B").1 =
      ("posts/Title A" : String) ∧
    (resolve_post_path "posts"
        (resolve_post_path "posts" [] "c" "42" "Title A").2
        "c" "42" "Title B").1 =
      (resolve_post_path "posts" [] "c" "42" "Title A").1 :=
  ⟨(C8_path_stability "posts" "c" "42" "Title B" "x" c8_db).1
      ⟨"c", "posts/Title A", "42"⟩ rfl,
    (C8_path_stability "posts" "c" "42" "Title A" "Title B" []).2⟩

/-- C9 counterexample: a candidate title that is non-empty but sanitises to
the empty name ("???") does not fall back to the post id — the caller's
fallback at launchers.py line 196 tests the title's length before
sanitisation, so the resolved path is `posts/` + "" instead of the claimed
`posts/` + post id. -/
theorem C9_counterexample :
    (resolve_post_path "posts" [] "c" "42" "???").1 = joinPath "posts" "" ∧
    joinPath "posts" "" ≠ joinPath "posts" "42" := by
  exact ⟨rfl, by decide⟩

/-- C9 amended: for an unregistered post id the chosen name is the sanitised
title when the title is non-empty (before sanitisation) and the post id when
it is empty; when two distinct post ids under the same creator produce the
same name, the second receives a distinct path suffixed `_<post_id>`, and
both rows are persisted. -/
theorem C9_collision_and_fallback (pp c pid1 pid2 t1 t2 : String)
    (hne : pid1 ≠ pid2) (hp2 : pid2 ≠ "")
    (hname : humanName pid1 t1 = humanName pid2 t2) :
    (resolve_post_path pp [] c pid1 t1).1 = joinPath pp (humanName pid1 t1) ∧
    (resolve_post_path pp (resolve_post_path pp [] c pid1 t1).2
        c pid2 t2).1 =
      joinPath pp (humanName pid2 t2 ++ "_" ++ pid2) ∧
    (resolve_post_path pp [] c pid1 t1).2 =
      [⟨c, joinPath pp (humanName pid1 t1), pid1⟩] ∧
    (resolve_post_path pp (resolve_post_path pp [] c pid1 t1).2
        c pid2 t2).2 =
      [⟨c, joinPath pp (humanName pid1 t1), pid1⟩,
        ⟨c, joinPath pp (humanName pid2 t2 ++ "_" ++ pid2), pid2⟩] ∧
    joinPath pp (humanName pid1 t1) ≠
      joinPath pp (humanName pid2 t2 ++ "_" ++ pid2) ∧
    ∀ pid t : String, t = "" →
      (resolve_post_path pp [] c pid t).1 = joinPath pp pid := by
  have hr1 : resolve_post_path pp [] c pid1 t1 =
      (joinPath pp (humanName pid1 t1),
        [⟨c, joinPath pp (humanName pid1 t1), pid1⟩]) := rfl
  have hb : (pid1 == pid2) = false := beq_eq_false_iff_ne.mpr hne
  have hgp : get_post [(⟨c, joinPath pp (humanName pid1 t1), pid1⟩ : RegEntry)]
      pid2 = none := by
    simp [get_post, List.find?_cons, hb]
  have hb2 : ((joinPath pp (humanName pid1 t1) : String) ==
      joinPath pp (humanName pid2 t2)) = true :=
    beq_iff_eq.mpr (by rw [hname])
  have hr2 : resolve_post_path pp
      [(⟨c, joinPath pp (humanName pid1 t1), pid1⟩ : RegEntry)] c pid2 t2 =
      (joinPath pp (humanName pid2 t2 ++ "_" ++ pid2),
        [⟨c, joinPath pp (humanName pid1 t1), pid1⟩,
          ⟨c, joinPath pp (humanName pid2 t2 ++ "_" ++ pid2), pid2⟩]) := by
    simp [resolve_post_path, hgp, get_posts_by_path, List.filter_cons, hb2,
      create_post]
  have hdist : joinPath pp (humanName pid1 t1) ≠
      joinPath pp (humanName pid2 t2 ++ "_" ++ pid2) := by
    intro heq
    have hlen := congrArg String.length heq
    have hu : ("_" : String).length = 1 := rfl
    have hn1 : (humanName pid1 t1).length = (humanName pid2 t2).length := by
      rw [hname]
    have hp2len : pid2.length ≠ 0 := str_length_ne_zero pid2 hp2
    simp [joinPath, String.length_append, hu, hn1] at hlen
    omega
  refine ⟨by rw [hr1], ?_, by rw [hr1], ?_, hdist, ?_⟩
  · rw [hr1, hr2]
  · rw [hr1, hr2]
  · intro pid t ht
    subst ht
    rfl

/-- C9 witness: post ids "1" and "2" with titles "A?" and "?A" both sanitise
to "A"; the second resolution returns the suffixed path. -/
theorem C9_collision_and_fallback_witness :
    (resolve_post_path "posts"
        (resolve_post_path "posts" [] "c" "1" "A?").2 "c" "2" "?A").1 =
      joinPath "posts" (humanName "2" "?A" ++ "_" ++ "2") :=
  (C9_collision_and_fallback "posts" "c" "1" "2" "A?" "?A" (by decide)
    (by decide) rfl).2.1

/-- C10: whenever an item's outcome is `incomplete`, the statistics aggregate
bumps the `passed` counter of the item's kind (there is no dedicated
incomplete counter), the item's destination path is appended to the global
incomplete-files list, and the downloaded and error counters are
untouched. -/
theorem C10_incomplete_stats (kind : Kind) (env : DLEnv) (path : String)
    (st : StatTracker)
    (h : (get_file_and_raise_stat kind env path st).1 =
      FinalStatus.incomplete) :
    (get_file_and_raise_stat kind env path st).2 =
      kindPassed kind (add_incomplete_file st path) ∧
    passedCount kind (get_file_and_raise_stat kind env path st).2 =
      passedCount kind st + 1 ∧
    (get_file_and_raise_stat kind env path st).2.incomplete_files =
      st.incomplete_files ++ [path] ∧
    downloadedCount kind (get_file_and_raise_stat kind env path st).2 =
      downloadedCount kind st ∧
    errorCount kind (get_file_and_raise_stat kind env path st).2 =
      errorCount kind st := by
  have hst : (download_file_if_not_exists env (kindMeta kind env)).status =
      .ok DLOutcome.incomplete := by
    cases hs : (download_file_if_not_exists env (kindMeta kind env)).status with
    | error e => simp [get_file_and_raise_stat, hs] at h
    | ok out =>
      cases out with
      | downloaded => simp [get_file_and_raise_stat, hs] at h
      | passed => simp [get_file_and_raise_stat, hs, statusOfOutcome] at h
      | incomplete => rfl
  have hrec := download_incomplete_recorded env (kindMeta kind env) hst
  have hmain : get_file_and_raise_stat kind env path st =
      (FinalStatus.incomplete, kindPassed kind (add_incomplete_file st path)) := by
    simp [get_file_and_raise_stat, hst, hrec, statusOfOutcome]
  rw [hmain]
  refine ⟨rfl, ?_, ?_, ?_, ?_⟩ <;>
    cases kind <;>
      cases st <;>
        simp [kindPassed, passedCount, downloadedCount, errorCount,
          add_incomplete_file, add_passed_photo, add_passed_video,
          add_passed_audio, add_passed_file]

/-- C10 witness: an existing photo at 10% of its expected length is
classified incomplete, bumping the passed-photo counter and recording the
path. -/
theorem C10_incomplete_stats_witness :
    (get_file_and_raise_stat Kind.p c10_env "photos/d.jpg"
        StatTracker.init).2 =
      kindPassed Kind.p (add_incomplete_file StatTracker.init "photos/d.jpg") :=
  (C10_incomplete_stats Kind.p c10_env "photos/d.jpg" StatTracker.init rfl).1

end Boosty
